import Mathlib

/-!
Verification of `samples/payload_feeder.py`: a demo payload generator that
opens a serial device, cycles through a fixed catalog of JSON frames, and
writes each frame as compact JSON plus a newline delimiter until interrupted.

The embedding models:
* the JSON value subset appearing in the catalog (`JVal`),
* the fixed catalog (`build_frames`),
* Python `json.dumps(frame, separators=(",", ":"))` (`dumps`) and the
  UTF-8 byte encoding plus newline delimiter (`message`),
* a decoder modelling `json.loads` on this subset (`loads`),
* the transmit loop of `main` as a fuel-indexed state function (`run`),
  parameterised by an environment describing transport behaviour
  (open success, per-write success, delay sign, interrupt arrival).
-/

namespace PayloadFeeder

/-- JSON-ish values as they occur in the frame dictionaries: Python `str`,
`int`, `bool` and `None`. The catalog uses only the first three. -/
inductive JVal where
  | str : String → JVal
  | int : Int → JVal
  | bool : Bool → JVal
  | null : JVal
deriving DecidableEq, Repr

/-- A frame descriptor: an insertion-ordered mapping from field name to value,
modelling a Python `dict` literal (Python dicts preserve insertion order). -/
abbrev Frame := List (String × JVal)

/-- The fixed five-frame catalog of `build_frames` in `payload_feeder.py`,
in source order. -/
def build_frames : List Frame :=
  [ [ ("line1", JVal.str "HELLO PI | \x7b0x00\x7d\x7b0x01\x7d | Scroll demo for a long line"),
      ("line2", JVal.str "IP 192.168.0.99 | Uptime 12:34:56"),
      ("scroll_speed_ms", JVal.int 200),
      ("page_timeout_ms", JVal.int 50000) ],
    [ ("line1", JVal.str "CPU LOAD"),
      ("bar_value", JVal.int 730),
      ("bar_max", JVal.int 1000),
      ("page_timeout_ms", JVal.int 10000) ],
    [ ("line1", JVal.str "ALERT: Temp"),
      ("line2", JVal.str "85C HOT!"),
      ("blink", JVal.bool true),
      ("ttl_ms", JVal.int 8000) ],
    [ ("line1", JVal.str "Backlight OFF demo"),
      ("line2", JVal.str "It should go dark"),
      ("backlight", JVal.bool false),
      ("page_timeout_ms", JVal.int 4000) ],
    [ ("line1", JVal.str "Clear + Test Pattern"),
      ("line2", JVal.str "Ensure wiring is OK"),
      ("page_timeout_ms", JVal.int 4000) ] ]

/-- Lower-case hexadecimal digit, as used by Python `json.dumps` in
`\uXXXX` escapes. -/
def hexDigit (n : Nat) : Char :=
  if n < 10 then Char.ofNat (48 + n) else Char.ofNat (87 + n)

/-- Four-digit lower-case hexadecimal rendering of `n < 65536`. -/
def hex4 (n : Nat) : String :=
  String.mk [hexDigit (n / 4096 % 16), hexDigit (n / 256 % 16),
             hexDigit (n / 16 % 16), hexDigit (n % 16)]

/-- Escape of one character inside a JSON string, following Python
`json.dumps` with its default `ensure_ascii=True`: the two-character escapes
for backslash, quote, backspace, form feed, newline, carriage return and tab;
`\uXXXX` (surrogate pairs above the BMP) for other control and non-ASCII
characters; all other ASCII passed through. -/
def escapeChar (c : Char) : String :=
  if c = '\\' then "\\\\"
  else if c = '\"' then "\\\""
  else if c = '\n' then "\\n"
  else if c = '\r' then "\\r"
  else if c = '\t' then "\\t"
  else if c = Char.ofNat 8 then "\\b"
  else if c = Char.ofNat 12 then "\\f"
  else if c.toNat < 32 ∨ 126 < c.toNat then
    if c.toNat ≤ 65535 then "\\u" ++ hex4 c.toNat
    else "\\u" ++ hex4 (55296 + (c.toNat - 65536) / 1024) ++
         "\\u" ++ hex4 (56320 + (c.toNat - 65536) % 1024)
  else String.singleton c

/-- JSON string literal encoding: quote, escaped characters, quote. -/
def encodeString (s : String) : String :=
  "\"" ++ String.join (s.data.map escapeChar) ++ "\""

/-- Decimal digits of `n`, most significant first; the first argument is
recursion fuel (`n` itself suffices). -/
def natDigits : Nat → Nat → List Char
  | 0, _ => []
  | _ + 1, 0 => []
  | fuel + 1, n => natDigits fuel (n / 10) ++ [Char.ofNat (48 + n % 10)]

/-- Decimal rendering of an integer, as Python `str(int)` produces it. -/
def intStr (n : Int) : String :=
  if n = 0 then "0"
  else if n < 0 then "-" ++ String.mk (natDigits n.natAbs n.natAbs)
  else String.mk (natDigits n.natAbs n.natAbs)

/-- JSON encoding of a single value. -/
def encodeJVal : JVal → String
  | JVal.str s => encodeString s
  | JVal.int n => intStr n
  | JVal.bool b => if b then "true" else "false"
  | JVal.null => "null"

/-- One `"key":value` member with the compact separator `":"`. -/
def encodePair (p : String × JVal) : String :=
  encodeString p.1 ++ ":" ++ encodeJVal p.2

/-- Compact JSON object encoding of a frame, modelling
`json.dumps(frame, separators=(",", ":"))`: members in insertion order,
no whitespace between tokens. -/
def dumps (f : Frame) : String :=
  "\x7b" ++ String.intercalate "," (f.map encodePair) ++ "\x7d"

/-- UTF-8 bytes of one character. -/
def utf8Char (c : Char) : List Nat :=
  let n := c.toNat
  if n < 128 then [n]
  else if n < 2048 then [192 + n / 64, 128 + n % 64]
  else if n < 65536 then [224 + n / 4096, 128 + n / 64 % 64, 128 + n % 64]
  else [240 + n / 262144, 128 + n / 4096 % 64, 128 + n / 64 % 64, 128 + n % 64]

/-- UTF-8 byte sequence of a string, modelling Python `s.encode("utf-8")`. -/
def utf8 (s : String) : List Nat :=
  (s.data.map utf8Char).flatten

/-- The transmitted byte-message for one frame:
`payload.encode("utf-8") + b"\n"`. -/
def message (f : Frame) : List Nat :=
  utf8 (dumps f) ++ [10]

/-! ## A decoder modelling `json.loads` on the flat-object subset -/

/-- JSON whitespace. -/
def isWs (c : Char) : Bool :=
  c = ' ' ∨ c = '\t' ∨ c = '\n' ∨ c = '\r'

/-- Drop leading JSON whitespace. -/
def skipWs : List Char → List Char
  | [] => []
  | c :: cs => if isWs c then skipWs cs else c :: cs

/-- Value of one hexadecimal digit character. -/
def hexVal (c : Char) : Option Nat :=
  if '0' ≤ c ∧ c ≤ '9' then some (c.toNat - 48)
  else if 'a' ≤ c ∧ c ≤ 'f' then some (c.toNat - 87)
  else if 'A' ≤ c ∧ c ≤ 'F' then some (c.toNat - 55)
  else none

/-- Read exactly four hexadecimal digits. -/
def readHex4 : List Char → Option (Nat × List Char)
  | a :: b :: c :: d :: rest =>
    match hexVal a, hexVal b, hexVal c, hexVal d with
    | some va, some vb, some vc, some vd =>
      some (va * 4096 + vb * 256 + vc * 16 + vd, rest)
    | _, _, _, _ => none
  | _ => none

/-- Read the body of a JSON string up to the closing quote, resolving the
escapes `json.loads` accepts; `\uXXXX` high/low surrogate pairs are combined
into one character. The first argument is recursion fuel. -/
def readStrBody : Nat → List Char → Option (List Char × List Char)
  | 0, _ => none
  | _ + 1, [] => none
  | fuel + 1, c :: cs =>
    if c = '\"' then some ([], cs)
    else if c = '\\' then
      match cs with
      | [] => none
      | e :: cs2 =>
        if e = '\"' then (readStrBody fuel cs2).map (fun r => ('\"' :: r.1, r.2))
        else if e = '\\' then (readStrBody fuel cs2).map (fun r => ('\\' :: r.1, r.2))
        else if e = '/' then (readStrBody fuel cs2).map (fun r => ('/' :: r.1, r.2))
        else if e = 'b' then (readStrBody fuel cs2).map (fun r => (Char.ofNat 8 :: r.1, r.2))
        else if e = 'f' then (readStrBody fuel cs2).map (fun r => (Char.ofNat 12 :: r.1, r.2))
        else if e = 'n' then (readStrBody fuel cs2).map (fun r => ('\n' :: r.1, r.2))
        else if e = 'r' then (readStrBody fuel cs2).map (fun r => ('\r' :: r.1, r.2))
        else if e = 't' then (readStrBody fuel cs2).map (fun r => ('\t' :: r.1, r.2))
        else if e = 'u' then
          match readHex4 cs2 with
          | none => none
          | some (n1, cs3) =>
            if 55296 ≤ n1 ∧ n1 < 56320 then
              match cs3 with
              | '\\' :: 'u' :: cs4 =>
                match readHex4 cs4 with
                | some (n2, cs5) =>
                  if 56320 ≤ n2 ∧ n2 < 57344 then
                    (readStrBody fuel cs5).map (fun r =>
                      (Char.ofNat (65536 + (n1 - 55296) * 1024 + (n2 - 56320)) :: r.1, r.2))
                  else none
                | none => none
              | _ => none
            else if 56320 ≤ n1 ∧ n1 < 57344 then none
            else (readStrBody fuel cs3).map (fun r => (Char.ofNat n1 :: r.1, r.2))
        else none
    else (readStrBody fuel cs).map (fun r => (c :: r.1, r.2))

/-- Numeric value of a digit string (most significant first). -/
def digitsToNat (ds : List Char) : Nat :=
  ds.foldl (fun a c => a * 10 + (c.toNat - 48)) 0

/-- Split off a maximal run of decimal digits. -/
def takeDigits : List Char → List Char × List Char
  | [] => ([], [])
  | c :: cs =>
    if '0' ≤ c ∧ c ≤ '9' then
      let r := takeDigits cs
      (c :: r.1, r.2)
    else ([], c :: cs)

/-- Whether the remaining input continues a JSON number with a fraction or
exponent part (which would decode to a Python float, outside this subset). -/
def numCont : List Char → Bool
  | c :: _ => c = '.' ∨ c = 'e' ∨ c = 'E'
  | [] => false

/-- Read one value of the subset: string, integer, `true`, `false`, `null`. -/
def readValue (fuel : Nat) : List Char → Option (JVal × List Char)
  | [] => none
  | c :: cs =>
    if c = '\"' then
      (readStrBody fuel cs).map (fun r => (JVal.str (String.mk r.1), r.2))
    else if c = 't' then
      match cs with
      | 'r' :: 'u' :: 'e' :: rest => some (JVal.bool true, rest)
      | _ => none
    else if c = 'f' then
      match cs with
      | 'a' :: 'l' :: 's' :: 'e' :: rest => some (JVal.bool false, rest)
      | _ => none
    else if c = 'n' then
      match cs with
      | 'u' :: 'l' :: 'l' :: rest => some (JVal.null, rest)
      | _ => none
    else if c = '-' then
      match takeDigits cs with
      | ([], _) => none
      | (ds, rest) =>
        if numCont rest then none
        else some (JVal.int (-(digitsToNat ds : Int)), rest)
    else if '0' ≤ c ∧ c ≤ '9' then
      match takeDigits (c :: cs) with
      | (ds, rest) =>
        if numCont rest then none
        else some (JVal.int (digitsToNat ds), rest)
    else none

/-- Read the members of an object after the opening brace, returning them in
source order; the first argument is recursion fuel. -/
def readMembers : Nat → List Char → Option (Frame × List Char)
  | 0, _ => none
  | fuel + 1, input =>
    match skipWs input with
    | '\"' :: cs =>
      match readStrBody (cs.length + 1) cs with
      | none => none
      | some (key, rest) =>
        match skipWs rest with
        | ':' :: rest2 =>
          match readValue ((skipWs rest2).length + 1) (skipWs rest2) with
          | none => none
          | some (v, rest3) =>
            match skipWs rest3 with
            | ',' :: rest4 =>
              (readMembers fuel rest4).map (fun r => ((String.mk key, v) :: r.1, r.2))
            | d :: rest4 =>
              if d = '\x7d' then some ([(String.mk key, v)], rest4) else none
            | [] => none
        | _ => none
    | _ => none

/-- Decoder modelling `json.loads` restricted to flat objects over the value
subset: a single object whose values are strings, integers, booleans or null,
with arbitrary surrounding JSON whitespace. Returns the key/value pairs in
source order. -/
def loads (s : String) : Option Frame :=
  match skipWs s.data with
  | c :: cs =>
    if c = '\x7b' then
      match skipWs cs with
      | d :: rest =>
        if d = '\x7d' then
          if (skipWs rest).isEmpty then some [] else none
        else
          match readMembers (cs.length + 1) cs with
          | some (f, rest2) => if (skipWs rest2).isEmpty then some f else none
          | none => none
      | [] => none
    else none
  | [] => none

/-! ## The transmit loop of `main`

`main` opens the serial device, then loops: select `frames[idx % len(frames)]`,
`json.dumps` it compactly, write the UTF-8 bytes plus `b"\n"`, flush,
increment `idx`, `time.sleep(delay)`. `KeyboardInterrupt` is caught and
treated as normal termination; any other exception propagates; `finally`
closes the device. The environment below abstracts the transport and the
operator: whether the open succeeds, which write calls succeed, the sign of
the configured delay (`time.sleep` raises for a negative argument), and if
and when an interrupt arrives. -/

/-- Transport/operator behaviour for one run of `main`. `interrupt = some
(n, false)` means the interrupt arrives in the sending phase of iteration `n`
(before its write is issued); `some (n, true)` means it arrives in the
waiting phase of iteration `n` (during its sleep, after its write and flush
completed); `none` means no interrupt ever arrives. -/
structure Env where
  openOk : Bool
  writeOk : Nat → Bool
  delay : Rat
  interrupt : Option (Nat × Bool)

/-- How a run ends. `running` means the fuel bound was reached with the loop
still going (the real loop is unbounded). -/
inductive Outcome where
  | interrupted
  | openFail
  | writeFail
  | sleepFail
  | emptyModFail
  | running
deriving DecidableEq, Repr

/-- Observable result of a run: the successfully written-and-flushed
byte-messages in order, how many times `close` ran, how the run ended, and
whether the process exit status is zero. -/
structure Trace where
  writes : List (List Nat)
  closes : Nat
  outcome : Outcome
  exitZero : Bool
deriving DecidableEq, Repr

/-- Frame selection: `frames[idx % len(frames)]`. Defined via `getD` with an
arbitrary default; the loop never reaches the default because the empty
catalog is sent to `emptyModFail` first (Python raises `ZeroDivisionError`
on `idx % 0`). -/
def selectFrame (frames : List Frame) (idx : Nat) : Frame :=
  frames.getD (idx % frames.length) []

/-- One fuel-bounded unfolding of the `while True` body, from cursor `idx`,
with `acc` the successful transmissions so far (most recent first). Order of
checks mirrors the Python body: interrupt observed at the top of an
iteration, frame selection (`idx % len` — raises on an empty catalog), write
(may raise), flush, cursor increment, interrupt observed during the sleep,
then the sleep itself (raises when `delay < 0`). -/
def loopIter (frames : List Frame) (env : Env) :
    Nat → Nat → List (List Nat) → List (List Nat) × Outcome
  | 0, _, acc => (acc.reverse, Outcome.running)
  | fuel + 1, idx, acc =>
    if env.interrupt = some (idx, false) then (acc.reverse, Outcome.interrupted)
    else if frames.length = 0 then (acc.reverse, Outcome.emptyModFail)
    else if env.writeOk idx = false then (acc.reverse, Outcome.writeFail)
    else
      let acc2 := message (selectFrame frames idx) :: acc
      if env.interrupt = some (idx, true) then (acc2.reverse, Outcome.interrupted)
      else if env.delay < 0 then (acc2.reverse, Outcome.sleepFail)
      else loopIter frames env fuel (idx + 1) acc2

/-- A fuel-bounded run of `main` after argument parsing: open the device
(`serial.Serial(...)` — on failure nothing else runs and the exit status is
non-zero), run the loop, and on any loop exit run `ser.close()` once via
`finally`. Only the caught `KeyboardInterrupt` path exits with status zero. -/
def run (frames : List Frame) (env : Env) (fuel : Nat) : Trace :=
  if env.openOk then
    { writes := (loopIter frames env fuel 0 []).1,
      closes := if (loopIter frames env fuel 0 []).2 = Outcome.running then 0 else 1,
      outcome := (loopIter frames env fuel 0 []).2,
      exitZero := decide ((loopIter frames env fuel 0 []).2 = Outcome.interrupted) }
  else
    { writes := [], closes := 0, outcome := Outcome.openFail, exitZero := false }

/-! ## Helper lemmas about the loop -/

/-- Shifting a `List.range` map by one: the head at `idx` followed by the
images of `idx + 1 + k` is the map over the extended range. -/
theorem map_range_shift {α : Type} (g : Nat → α) (idx n : Nat) :
    g idx :: (List.range n).map (fun k => g (idx + 1 + k)) =
      (List.range (n + 1)).map (fun k => g (idx + k)) := by
  rw [List.range_succ_eq_map]
  simp only [List.map_cons, Nat.add_zero, List.map_map]
  refine congrArg (g idx :: ·) (List.map_congr_left ?_)
  intro k _
  simp only [Function.comp_apply]
  congr 1
  omega

/-- With no interrupt, all writes succeeding and a non-negative delay, the
loop never exits: from cursor `idx` it transmits the cyclic messages for
cursors `idx, idx + 1, …` until fuel runs out. -/
theorem loopIter_clean (frames : List Frame) (env : Env)
    (hI : env.interrupt = none) (hW : ∀ k, env.writeOk k = true)
    (hD : 0 ≤ env.delay) (hL : frames.length ≠ 0) :
    ∀ fuel idx acc, loopIter frames env fuel idx acc =
      (acc.reverse ++ (List.range fuel).map (fun k => message (selectFrame frames (idx + k))),
        Outcome.running) := by
  intro fuel
  induction fuel with
  | zero => intro idx acc; simp [loopIter]
  | succ m ih =>
    intro idx acc
    rw [loopIter, if_neg (by simp [hI]), if_neg hL, if_neg (by simp [hW idx]),
      if_neg (by simp [hI]), if_neg (not_lt.mpr hD), ih]
    rw [List.reverse_cons, List.append_assoc, List.singleton_append]
    refine congrArg (fun l => (acc.reverse ++ l, Outcome.running)) ?_
    exact map_range_shift (fun j => message (selectFrame frames j)) idx m

/-- A non-negative delay makes the sleep-failure branch unreachable. -/
theorem loopIter_no_sleepFail (frames : List Frame) (env : Env) (hD : 0 ≤ env.delay) :
    ∀ fuel idx acc, (loopIter frames env fuel idx acc).2 ≠ Outcome.sleepFail := by
  intro fuel
  induction fuel with
  | zero => intro idx acc; simp [loopIter]
  | succ m ih =>
    intro idx acc
    rw [loopIter]
    split
    · simp
    · split
      · simp
      · split
        · simp
        · split
          · simp
          · rw [if_neg (not_lt.mpr hD)]
            exact ih (idx + 1) _

/-- If the interrupt arrives at iteration `n` (in either phase) and nothing
fails before it, the loop observes it and exits with the interrupted
outcome. -/
theorem loopIter_interrupt (frames : List Frame) (env : Env) (n : Nat) (b : Bool)
    (hI : env.interrupt = some (n, b)) (hW : ∀ k, env.writeOk k = true)
    (hD : 0 ≤ env.delay) (hL : frames.length ≠ 0) :
    ∀ fuel idx acc, idx ≤ n → n - idx < fuel →
      (loopIter frames env fuel idx acc).2 = Outcome.interrupted := by
  intro fuel
  induction fuel with
  | zero => intro idx acc _ h; omega
  | succ m ih =>
    intro idx acc hle hfuel
    rcases eq_or_lt_of_le hle with heq | hlt
    · subst heq
      cases b with
      | false => rw [loopIter, if_pos (by rw [hI])]
      | true =>
        rw [loopIter, if_neg (by rw [hI]; simp), if_neg hL, if_neg (by simp [hW idx]),
          if_pos (by rw [hI])]
    · have h1 : ¬env.interrupt = some (idx, false) := by
        rw [hI]
        simp only [Option.some.injEq, Prod.mk.injEq, not_and]
        intro h
        omega
      have h2 : ¬env.interrupt = some (idx, true) := by
        rw [hI]
        simp only [Option.some.injEq, Prod.mk.injEq, not_and]
        intro h
        omega
      rw [loopIter, if_neg h1, if_neg hL, if_neg (by simp [hW idx]), if_neg h2,
        if_neg (not_lt.mpr hD)]
      exact ih (idx + 1) _ (by omega) (by omega)

/-- Clean-run characterisation of `run`: device open, no interrupt, all
writes succeed, non-negative delay, non-empty catalog — the first `fuel`
transmissions are the cyclic messages for cursors `0, 1, …`. -/
theorem run_clean (frames : List Frame) (env : Env) (fuel : Nat)
    (hO : env.openOk = true) (hI : env.interrupt = none) (hW : ∀ k, env.writeOk k = true)
    (hD : 0 ≤ env.delay) (hL : frames.length ≠ 0) :
    run frames env fuel =
      { writes := (List.range fuel).map (fun k => message (selectFrame frames k)),
        closes := 0, outcome := Outcome.running, exitZero := false } := by
  rw [run, if_pos hO]
  rw [loopIter_clean frames env hI hW hD hL fuel 0 []]
  simp

/-! ## Concrete environments used by witnesses -/

/-- Device opens, every write succeeds, delay 4.0, no interrupt. -/
def allOkEnv : Env :=
  { openOk := true, writeOk := fun _ => true, delay := 4, interrupt := none }

/-- Device opens, writes 0 and 1 succeed, the third write (index 2) fails. -/
def failThirdEnv : Env :=
  { openOk := true, writeOk := fun k => decide (k < 2), delay := 4, interrupt := none }

/-- Connection acquisition fails. -/
def noOpenEnv : Env :=
  { openOk := false, writeOk := fun _ => true, delay := 4, interrupt := none }

/-- Interrupt arrives in the sending phase of iteration 0. -/
def interruptEnv : Env :=
  { openOk := true, writeOk := fun _ => true, delay := 4, interrupt := some (0, false) }

/-- Negative delay: `time.sleep` raises on its first call. -/
def negDelayEnv : Env :=
  { openOk := true, writeOk := fun _ => true, delay := -1, interrupt := none }

/-! ## The claims -/

/-- Modelled from the spec (§8 scenario): the spec's expected compact JSON
text of the first transmitted frame, compared against the encoder embedded
from the source. -/
def specFirstMessageText : String :=
  "\x7b\"line1\":\"HELLO PI | \x7b0x00\x7d\x7b0x01\x7d | Scroll demo for a long line\",\"line2\":\"IP 192.168.0.99 | Uptime 12:34:56\",\"scroll_speed_ms\":200,\"page_timeout_ms\":50000\x7d"

set_option maxRecDepth 20000 in
/-- C1: with the device opened successfully, no interrupt, all writes
succeeding and a non-negative delay, the `k`-th transmitted byte-message is
the compact JSON encoding of catalog entry `k mod 5`, UTF-8 encoded with a
single newline byte appended; and the first one is byte-for-byte the spec's
expected text (keys in insertion order, no extra whitespace, brace-escape
markers verbatim) followed by the newline byte. -/
theorem transmitted_sequence (env : Env) (fuel k : Nat)
    (hO : env.openOk = true) (hI : env.interrupt = none)
    (hW : ∀ j, env.writeOk j = true) (hD : 0 ≤ env.delay) (hk : k < fuel) :
    (run build_frames env fuel).writes[k]? =
      some (message (selectFrame build_frames k)) ∧
    (run build_frames env fuel).writes[0]? =
      some (utf8 specFirstMessageText ++ [10]) := by
  rw [run_clean build_frames env fuel hO hI hW hD (by decide)]
  have h0 : 0 < fuel := Nat.lt_of_le_of_lt (Nat.zero_le k) hk
  constructor
  · rw [List.getElem?_map, List.getElem?_range hk, Option.map_some']
  · rw [List.getElem?_map, List.getElem?_range h0, Option.map_some']
    rfl

/-- C1 witness at the concrete all-success environment, one iteration. -/
theorem transmitted_sequence_witness :
    (run build_frames allOkEnv 1).writes[0]? =
      some (message (selectFrame build_frames 0)) ∧
    (run build_frames allOkEnv 1).writes[0]? =
      some (utf8 specFirstMessageText ++ [10]) :=
  transmitted_sequence allOkEnv 1 0 rfl rfl (fun _ => rfl) (by norm_num [allOkEnv])
    Nat.zero_lt_one

/-- C2: frame selection is cyclic — the frame at cursor `n` equals the frame
at cursor `n + len(catalog)` for every `n` — and in a clean run the `k`-th
successful transmission uses cursor value `k`: the cursor starts at 0 and
increments by exactly one after each successful transmission. -/
theorem cyclic_selection (env : Env) (fuel : Nat)
    (hO : env.openOk = true) (hI : env.interrupt = none)
    (hW : ∀ j, env.writeOk j = true) (hD : 0 ≤ env.delay) :
    (∀ n : Nat, selectFrame build_frames n =
      selectFrame build_frames (n + build_frames.length)) ∧
    (run build_frames env fuel).writes =
      (List.range fuel).map (fun k => message (selectFrame build_frames k)) := by
  constructor
  · intro n
    unfold selectFrame
    rw [Nat.add_mod_right]
  · rw [run_clean build_frames env fuel hO hI hW hD (by decide)]

/-- C2 witness at the concrete all-success environment, five iterations. -/
theorem cyclic_selection_witness :
    (∀ n : Nat, selectFrame build_frames n =
      selectFrame build_frames (n + build_frames.length)) ∧
    (run build_frames allOkEnv 5).writes =
      (List.range 5).map (fun k => message (selectFrame build_frames k)) :=
  cyclic_selection allOkEnv 5 rfl rfl (fun _ => rfl) (by norm_num [allOkEnv])

set_option maxRecDepth 20000 in
/-- C3: for every entry of the catalog, encoding it as compact JSON and then
decoding yields the original frame descriptor (round-trip law). -/
theorem dumps_loads_roundtrip : ∀ f ∈ build_frames, loads (dumps f) = some f := by
  decide

set_option maxRecDepth 20000 in
/-- C3 witness: the round trip evaluated on the first catalog entry. -/
theorem dumps_loads_roundtrip_witness :
    loads (dumps (build_frames.getD 0 [])) = some (build_frames.getD 0 []) :=
  dumps_loads_roundtrip (build_frames.getD 0 []) (by decide)

/-- C4 counterexample: run with an empty catalog (device opening
successfully), the release step runs (`closes = 1`), so a connection was
opened, and the failure is the in-loop modulo error (Python raises
`ZeroDivisionError` on `idx % 0` after `serial.Serial` succeeded) — the
empty catalog is not rejected before any connection is opened. -/
theorem empty_catalog_not_rejected_before_open :
    (run [] allOkEnv 1).closes = 1 ∧
    (run [] allOkEnv 1).outcome = Outcome.emptyModFail ∧
    ¬(run [] allOkEnv 1).closes = 0 := by
  decide

/-- C4 (amended): the catalog is non-empty (length 5 ≥ 1), so the loop never
runs over an empty sequence; but the code performs no empty-catalog
configuration check — on a hypothetically empty catalog the device is opened
first, zero writes occur, the loop fails with the modulo error on the first
frame selection, the connection is still released, and the process exits
non-zero. -/
theorem empty_catalog_behavior (env : Env) (fuel : Nat)
    (hO : env.openOk = true) (hI : env.interrupt = none) (hf : 1 ≤ fuel) :
    1 ≤ build_frames.length ∧
    run [] env fuel =
      { writes := [], closes := 1, outcome := Outcome.emptyModFail,
        exitZero := false } := by
  refine ⟨by decide, ?_⟩
  obtain ⟨m, rfl⟩ := Nat.exists_eq_add_of_le' hf
  rw [run, if_pos hO, loopIter, if_neg (by simp [hI])]
  rfl

/-- C4 witness for the amended claim at the concrete environment. -/
theorem empty_catalog_behavior_witness :
    1 ≤ build_frames.length ∧
    run [] allOkEnv 1 =
      { writes := [], closes := 1, outcome := Outcome.emptyModFail,
        exitZero := false } :=
  empty_catalog_behavior allOkEnv 1 rfl rfl (Nat.le_refl 1)

/-- C5: if the transport fails on the third write after a successful open
(writes 0 and 1 succeed, write 2 fails), the loop performs exactly the two
transmissions for cursors 0 and 1, terminates with the write fault, the
connection release runs exactly once, and the exit status is non-zero. -/
theorem third_write_fails (env : Env) (fuel : Nat)
    (hO : env.openOk = true) (hI : env.interrupt = none)
    (h0 : env.writeOk 0 = true) (h1 : env.writeOk 1 = true)
    (h2 : env.writeOk 2 = false)
    (hD : 0 ≤ env.delay) (hf : 3 ≤ fuel) :
    run build_frames env fuel =
      { writes := [message (selectFrame build_frames 0),
                   message (selectFrame build_frames 1)],
        closes := 1, outcome := Outcome.writeFail, exitZero := false } := by
  obtain ⟨m, rfl⟩ := Nat.exists_eq_add_of_le' hf
  rw [run, if_pos hO]
  rw [show m + 3 = (m + 2) + 1 from rfl, loopIter, if_neg (by simp [hI]),
    if_neg (by decide), if_neg (by simp [h0]), if_neg (by simp [hI]),
    if_neg (not_lt.mpr hD)]
  rw [show m + 2 = (m + 1) + 1 from rfl, loopIter, if_neg (by simp [hI]),
    if_neg (by decide), if_neg (by simp [h1]), if_neg (by simp [hI]),
    if_neg (not_lt.mpr hD)]
  rw [show m + 1 = m + 1 from rfl, loopIter, if_neg (by simp [hI]),
    if_neg (by decide), if_pos (by simp [h2])]
  rfl

/-- C5 witness at the concrete fail-on-third-write environment. -/
theorem third_write_fails_witness :
    run build_frames failThirdEnv 3 =
      { writes := [message (selectFrame build_frames 0),
                   message (selectFrame build_frames 1)],
        closes := 1, outcome := Outcome.writeFail, exitZero := false } :=
  third_write_fails failThirdEnv 3 rfl rfl rfl rfl rfl (by norm_num [failThirdEnv])
    (Nat.le_refl 3)

/-- C6: if connection acquisition fails, zero write attempts are made, no
release is performed (`closes = 0`), and the exit status is non-zero. -/
theorem open_failure (env : Env) (fuel : Nat) (hO : env.openOk = false) :
    run build_frames env fuel =
      { writes := [], closes := 0, outcome := Outcome.openFail,
        exitZero := false } := by
  rw [run, if_neg (by simp [hO])]

/-- C6 witness at the concrete failed-acquisition environment. -/
theorem open_failure_witness :
    run build_frames noOpenEnv 5 =
      { writes := [], closes := 0, outcome := Outcome.openFail,
        exitZero := false } :=
  open_failure noOpenEnv 5 rfl

/-- C7: when the interrupt signal arrives at any iteration `n`, in either
phase (`b = false`: sending; `b = true`: waiting), the loop exits with the
interrupted outcome (normal termination, not an error), the connection
release runs exactly once, and the process exits with status 0. -/
theorem interrupt_clean_exit (env : Env) (fuel n : Nat) (b : Bool)
    (hO : env.openOk = true) (hI : env.interrupt = some (n, b))
    (hW : ∀ k, env.writeOk k = true) (hD : 0 ≤ env.delay) (hf : n < fuel) :
    (run build_frames env fuel).outcome = Outcome.interrupted ∧
    (run build_frames env fuel).closes = 1 ∧
    (run build_frames env fuel).exitZero = true := by
  have h := loopIter_interrupt build_frames env n b hI hW hD (by decide) fuel 0 []
    (Nat.zero_le n) (by omega)
  rw [run, if_pos hO]
  simp [h]

/-- C7 witness: interrupt in the sending phase of iteration 0. -/
theorem interrupt_clean_exit_witness :
    (run build_frames interruptEnv 1).outcome = Outcome.interrupted ∧
    (run build_frames interruptEnv 1).closes = 1 ∧
    (run build_frames interruptEnv 1).exitZero = true :=
  interrupt_clean_exit interruptEnv 1 0 false rfl rfl (fun _ => rfl)
    (by norm_num [interruptEnv]) Nat.zero_lt_one

/-- Whether a value is one of the JSON-representable primitives the spec
names: text, integer or boolean. -/
def isPrimitive : JVal → Bool
  | JVal.null => false
  | _ => true

/-- C8: the catalog contains at least one entry and every field value in
every descriptor is a JSON-representable primitive (text, integer or
boolean). Purity and per-invocation determinism hold by construction in this
embedding: `build_frames` is a closed parameterless definition denoting one
fixed list. -/
theorem catalog_nonempty_primitive :
    1 ≤ build_frames.length ∧
    ∀ f ∈ build_frames, ∀ p ∈ f, isPrimitive p.2 = true := by
  decide

/-- C8 witness: a concrete field value of the first catalog entry. -/
theorem catalog_nonempty_primitive_witness :
    isPrimitive (JVal.int 200) = true :=
  catalog_nonempty_primitive.2 (build_frames.getD 0 []) (by decide)
    ("scroll_speed_ms", JVal.int 200) (by decide)

/-- C9: the code does not validate that the delay is non-negative. With a
negative delay (and everything else succeeding), the first frame is still
written and flushed, then the pacing sleep raises, terminating the loop with
an error after exactly one successful transmission, with the connection
released and a non-zero exit status. Conversely, with a non-negative delay
the sleep-failure branch is unreachable in any state. -/
theorem negative_delay_unvalidated (env : Env) (fuel : Nat) :
    (env.openOk = true → env.interrupt = none → (∀ k, env.writeOk k = true) →
      env.delay < 0 → 1 ≤ fuel →
      run build_frames env fuel =
        { writes := [message (selectFrame build_frames 0)], closes := 1,
          outcome := Outcome.sleepFail, exitZero := false }) ∧
    (0 ≤ env.delay → ∀ frames idx acc,
      (loopIter frames env fuel idx acc).2 ≠ Outcome.sleepFail) := by
  constructor
  · intro hO hI hW hD hf
    obtain ⟨m, rfl⟩ := Nat.exists_eq_add_of_le' hf
    rw [run, if_pos hO, loopIter, if_neg (by simp [hI]), if_neg (by decide),
      if_neg (by simp [hW 0]), if_neg (by simp [hI]), if_pos hD]
    rfl
  · intro hD frames idx acc
    exact loopIter_no_sleepFail frames env hD fuel idx acc

/-- C9 witness: first conjunct at the concrete negative-delay environment,
second conjunct at the all-success environment. -/
theorem negative_delay_unvalidated_witness :
    run build_frames negDelayEnv 1 =
      { writes := [message (selectFrame build_frames 0)], closes := 1,
        outcome := Outcome.sleepFail, exitZero := false } ∧
    (loopIter build_frames allOkEnv 1 0 []).2 ≠ Outcome.sleepFail :=
  ⟨(negative_delay_unvalidated negDelayEnv 1).1 rfl rfl (fun _ => rfl)
      (by norm_num [negDelayEnv]) (Nat.le_refl 1),
   (negative_delay_unvalidated allOkEnv 1).2 (by norm_num [allOkEnv])
      build_frames 0 []⟩

/-- C10: every byte-message the loop can ever transmit — the message of the
frame selected at any cursor value `n` — contains exactly one newline byte,
and it is the terminal delimiter, so the wire stream is unambiguously framed
by newlines. -/
theorem newline_framing (n : Nat) :
    (message (selectFrame build_frames n)).count 10 = 1 ∧
    (message (selectFrame build_frames n)).getLast? = some 10 := by
  have hlen : build_frames.length = 5 := rfl
  have h5 : n % 5 = 0 ∨ n % 5 = 1 ∨ n % 5 = 2 ∨ n % 5 = 3 ∨ n % 5 = 4 := by omega
  unfold selectFrame
  rw [hlen]
  rcases h5 with h | h | h | h | h <;> rw [h] <;> exact ⟨by decide, by decide⟩

end PayloadFeeder
